import Mathlib

/-!
Verification of the DownOnSpot core (src/spotify.rs, src/tag/mod.rs, src/tag/id3.rs)
against its natural-language specification.

The Rust code is shallowly embedded: pure string manipulation becomes Lean
functions on String, remote calls become oracles passed in an environment
structure, async paging streams become finite lists of yields, and a Rust
panic (an `unwrap` on an Err/None) becomes an explicit `panic` outcome,
distinct from returning an error value.
-/

namespace DownOnSpot

/-- Rust str::split(c): splits on every occurrence of the separator char,
keeping empty pieces, so a string with n separators yields n+1 pieces. -/
def splitCharAux (c : Char) : List Char → List Char → List String
  | [], acc => [String.mk acc.reverse]
  | ch :: rest, acc =>
    if ch = c then String.mk acc.reverse :: splitCharAux c rest []
    else splitCharAux c rest (ch :: acc)

/-- Embedding of Rust uri.split(':').collect() as used in spotify.rs. -/
def splitColon (s : String) : List String :=
  splitCharAux ':' s.data []

/-- Embedding of Rust str::starts_with for string patterns. -/
def charsStart : List Char → List Char → Bool
  | [], _ => true
  | _ :: _, [] => false
  | p :: ps, c :: cs => p = c && charsStart ps cs

/-- Rust uri.starts_with(pat). -/
def rustStartsWith (s pat : String) : Bool :=
  charsStart pat.data s.data

/-- Rust Vec<String>::join(sep). -/
def joinSep (sep : String) : List String → String
  | [] => ""
  | [x] => x
  | x :: xs => x ++ sep ++ joinSep sep xs

/-- The error type of the repository (src/error.rs is not part of src/; the
variants used by the embedded code are the ones spotify.rs names:
SpotifyError::InvalidUri — the spec calls this class InvalidReference —
and SpotifyError::Error(String)). -/
inductive SpotifyError where
  | invalidUri
  | error (msg : String)
deriving DecidableEq, Repr

/-- Stand-in for url::ParseError (external url crate): the code only ever
converts it, never inspects it. -/
abbrev UrlParseError := Unit

/-- Modelled from the spec: the From conversion of a URL-parse failure into
SpotifyError lives in src/error.rs, which is not in src/. The spec classes
a malformed URL under InvalidReference ("Any other host, or a malformed URL,
fails with InvalidReference"), so the conversion yields invalidUri. -/
def SpotifyError.ofUrlError (_ : UrlParseError) : SpotifyError :=
  .invalidUri

/-- View of a parsed URL as the code consumes it: url.host_str() and
url.path_segments() (None when the URL cannot be a base). The url crate is
an external dependency, so URL parsing itself is an oracle parameter. -/
structure Url where
  host : Option String
  path_segments : Option (List String)
deriving DecidableEq

/-- Embedding of Spotify::parse_uri (src/spotify.rs lines 61-84).
parseUrl is the oracle for url::Url::parse. -/
def parse_uri (parseUrl : String → Except UrlParseError Url) (uri : String) :
    Except SpotifyError String :=
  if rustStartsWith uri "spotify:" then
    if (splitColon uri).length < 3 then .error .invalidUri
    else .ok uri
  else
    match parseUrl uri with
    | .error e => .error (SpotifyError.ofUrlError e)
    | .ok url =>
      if url.host = some "open.spotify.com" then
        match url.path_segments with
        | none => .error (.error "Missing URL path")
        | some path =>
          match path with
          | a :: b :: _ => .ok ("spotify:" ++ a ++ ":" ++ b)
          | _ => .error .invalidUri
      else .error .invalidUri

/-- C2: a native-scheme input (starting with "spotify:") fails with
InvalidReference (SpotifyError::InvalidUri) exactly when it has fewer than
three colon-delimited segments, and is otherwise returned unchanged; hence
parse_uri is the identity, and idempotent, on well-formed canonical
references. -/
theorem parse_uri_native_scheme (parseUrl : String → Except UrlParseError Url)
    (uri : String) (h : rustStartsWith uri "spotify:" = true) :
    ((splitColon uri).length < 3 →
      parse_uri parseUrl uri = .error .invalidUri) ∧
    (3 ≤ (splitColon uri).length →
      parse_uri parseUrl uri = .ok uri) ∧
    (∀ s, parse_uri parseUrl uri = .ok s →
      parse_uri parseUrl s = .ok s) := by
  refine ⟨fun hl => ?_, fun hl => ?_, fun s hs => ?_⟩
  · simp [parse_uri, h, hl]
  · simp [parse_uri, h, Nat.not_lt.mpr hl]
  · simp only [parse_uri, h, if_true] at hs
    by_cases hl : (splitColon uri).length < 3
    · simp [hl] at hs
    · simp [hl] at hs
      subst hs
      simp [parse_uri, h, hl]

/-- Concrete oracle used by the C2 witness: no string is a parseable URL. -/
def c2parseUrl : String → Except UrlParseError Url := fun _ => .error ()

/-- C2 witness: parse_uri is the identity on the canonical reference
"spotify:track:abc123". -/
theorem parse_uri_native_scheme_witness :
    parse_uri c2parseUrl "spotify:track:abc123" = .ok "spotify:track:abc123" :=
  (parse_uri_native_scheme c2parseUrl "spotify:track:abc123"
    (by decide)).2.1 (by decide)

/-- C3: for a non-native input, if the URL parses with the web-player host
and at least two path segments the result is spotify:seg0:seg1; with fewer
than two segments it fails; any other host, or a URL-parse failure, fails
with InvalidReference. -/
theorem parse_uri_web_url (parseUrl : String → Except UrlParseError Url)
    (uri : String) (h : rustStartsWith uri "spotify:" = false) :
    (∀ u a b rest, parseUrl uri = .ok u →
      u.host = some "open.spotify.com" →
      u.path_segments = some (a :: b :: rest) →
      parse_uri parseUrl uri = .ok ("spotify:" ++ a ++ ":" ++ b)) ∧
    (∀ u segs, parseUrl uri = .ok u →
      u.host = some "open.spotify.com" →
      u.path_segments = some segs → segs.length < 2 →
      parse_uri parseUrl uri = .error .invalidUri) ∧
    (∀ u, parseUrl uri = .ok u →
      u.host ≠ some "open.spotify.com" →
      parse_uri parseUrl uri = .error .invalidUri) ∧
    (∀ e, parseUrl uri = .error e →
      parse_uri parseUrl uri = .error .invalidUri) := by
  refine ⟨fun u a b rest hu hh hp => ?_, fun u segs hu hh hp hl => ?_,
    fun u hu hh => ?_, fun e he => ?_⟩
  · simp [parse_uri, h, hu, hh, hp]
  · match segs, hl with
    | [], _ => simp [parse_uri, h, hu, hh, hp]
    | [a], _ => simp [parse_uri, h, hu, hh, hp]
  · simp [parse_uri, h, hu, hh]
  · simp [parse_uri, h, he, SpotifyError.ofUrlError]

/-- Concrete oracle used by the C3 witness: exactly one string parses, as a
web-player URL with two path segments. -/
def c3parseUrl : String → Except UrlParseError Url := fun s =>
  if s = "https://open.spotify.com/track/abc" then
    .ok { host := some "open.spotify.com", path_segments := some ["track", "abc"] }
  else .error ()

/-- C3 witness: the web-player track URL maps to spotify:track:abc. -/
theorem parse_uri_web_url_witness :
    parse_uri c3parseUrl "https://open.spotify.com/track/abc" =
      .ok "spotify:track:abc" :=
  (parse_uri_web_url c3parseUrl "https://open.spotify.com/track/abc"
    (by decide)).1
    { host := some "open.spotify.com", path_segments := some ["track", "abc"] }
    "track" "abc" [] rfl rfl rfl

/-- Opaque payloads returned by the remote metadata service (rspotify model
types); the embedded code never inspects them, only wraps and collects. -/
abbrev FullTrack := String

/-- Opaque full-playlist payload. -/
abbrev FullPlaylist := String

/-- Opaque full-album payload. -/
abbrev FullAlbum := String

/-- Opaque full-artist payload. -/
abbrev FullArtist := String

/-- Opaque simplified-track payload, the item type of album paging. -/
abbrev SimplifiedTrack := String

/-- The one field of rspotify SimplifiedAlbum the code reads: album.id,
an Option; the stored String is what album.id.unwrap().to_string() yields. -/
structure SimplifiedAlbum where
  id : Option String
deriving DecidableEq

/-- Embedding of the SpotifyItem enum (src/spotify.rs lines 218-226). -/
inductive SpotifyItem where
  | Track (t : FullTrack)
  | Album (a : FullAlbum)
  | Playlist (p : FullPlaylist)
  | Artist (a : FullArtist)
  | Other (s : String)
deriving DecidableEq

/-- Outcome of running a Rust function that can return Ok, return Err, or
panic (an `unwrap` of an Err/None aborts instead of returning). -/
inductive RunResult (ε α : Type) where
  | ok (a : α)
  | err (e : ε)
  | panic
deriving DecidableEq

/-- One remote request issued by resolve_uri, recorded for the network-call
bookkeeping the spec reasons about. -/
inductive NetCall where
  | track (id : String)
  | playlist (id : String)
  | album (id : String)
  | artist (id : String)
deriving DecidableEq

/-- Environment of external effects: fromId is the rspotify Id::from_id
constructor (shared by Track/Playlist/Album/ArtistId, all fallible — the
source calls .unwrap() on each), the fetch oracles are the single
request/response client calls, and the two stream oracles give the finite
sequence of yields of the paging streams (an .error yield is a failed page
fetch surfaced by try_next). -/
structure SpotifyEnv where
  fromId : String → Option String
  fetchTrack : String → Except SpotifyError FullTrack
  fetchPlaylist : String → Except SpotifyError FullPlaylist
  fetchAlbum : String → Except SpotifyError FullAlbum
  fetchArtist : String → Except SpotifyError FullArtist
  album_track : String → List (Except SpotifyError SimplifiedTrack)
  artist_albums : String → List (Except SpotifyError SimplifiedAlbum)

/-- Embedding of the Rust ? operator on an awaited client call: Ok wraps,
Err propagates as the function's error result. -/
def runOfExcept {α β : Type} (x : Except SpotifyError α) (f : α → β) :
    RunResult SpotifyError β :=
  match x with
  | .ok a => .ok (f a)
  | .error e => .err e

/-- Result of resolve_uri together with the remote calls it issued. -/
structure ResolveRun where
  result : RunResult SpotifyError SpotifyItem
  calls : List NetCall
deriving DecidableEq

/-- Embedding of Spotify::resolve_uri (src/spotify.rs lines 87-119).
parts[1] is read before the match on parts[0], so an input with fewer than
three colon-delimited segments panics at the indexing. Each known kind does
a from_id(id).unwrap() — panic when the constructor rejects — then one
remote fetch whose Err propagates via ?; any other kind returns Other with
the original input and no call. -/
def resolve_uri (env : SpotifyEnv) (uri : String) : ResolveRun :=
  let parts := (splitColon uri).drop 1
  match parts.get? 1 with
  | none => ⟨.panic, []⟩
  | some id =>
    match parts.get? 0 with
    | none => ⟨.panic, []⟩
    | some kind =>
      if kind = "track" then
        match env.fromId id with
        | none => ⟨.panic, []⟩
        | some vid =>
          ⟨runOfExcept (env.fetchTrack vid) SpotifyItem.Track, [.track vid]⟩
      else if kind = "playlist" then
        match env.fromId id with
        | none => ⟨.panic, []⟩
        | some vid =>
          ⟨runOfExcept (env.fetchPlaylist vid) SpotifyItem.Playlist, [.playlist vid]⟩
      else if kind = "album" then
        match env.fromId id with
        | none => ⟨.panic, []⟩
        | some vid =>
          ⟨runOfExcept (env.fetchAlbum vid) SpotifyItem.Album, [.album vid]⟩
      else if kind = "artist" then
        match env.fromId id with
        | none => ⟨.panic, []⟩
        | some vid =>
          ⟨runOfExcept (env.fetchArtist vid) SpotifyItem.Artist, [.artist vid]⟩
      else ⟨.ok (.Other uri), []⟩

/-- C5: resolve_uri dispatches purely on the kind segment: each of the four
known kinds issues exactly its single remote fetch (with the error
propagated), and any other kind returns Other carrying the original input
string with no network call. -/
theorem resolve_uri_dispatch (env : SpotifyEnv) (uri s0 kind id vid : String)
    (rest : List String)
    (hsplit : splitColon uri = s0 :: kind :: id :: rest)
    (hid : env.fromId id = some vid) :
    (kind = "track" → resolve_uri env uri =
      ⟨runOfExcept (env.fetchTrack vid) SpotifyItem.Track, [.track vid]⟩) ∧
    (kind = "playlist" → resolve_uri env uri =
      ⟨runOfExcept (env.fetchPlaylist vid) SpotifyItem.Playlist, [.playlist vid]⟩) ∧
    (kind = "album" → resolve_uri env uri =
      ⟨runOfExcept (env.fetchAlbum vid) SpotifyItem.Album, [.album vid]⟩) ∧
    (kind = "artist" → resolve_uri env uri =
      ⟨runOfExcept (env.fetchArtist vid) SpotifyItem.Artist, [.artist vid]⟩) ∧
    (kind ∉ (["track", "playlist", "album", "artist"] : List String) →
      resolve_uri env uri = ⟨.ok (.Other uri), []⟩) := by
  refine ⟨fun hk => ?_, fun hk => ?_, fun hk => ?_, fun hk => ?_, fun hk => ?_⟩
  · subst hk; simp [resolve_uri, hsplit, hid]
  · subst hk; simp [resolve_uri, hsplit, hid]
  · subst hk; simp [resolve_uri, hsplit, hid]
  · subst hk; simp [resolve_uri, hsplit, hid]
  · simp only [List.mem_cons, List.not_mem_nil, or_false, not_or] at hk
    obtain ⟨h1, h2, h3, h4⟩ := hk
    simp [resolve_uri, hsplit, h1, h2, h3, h4]

/-- Concrete environment for the C5 witness. -/
def c5env : SpotifyEnv where
  fromId := fun s => some s
  fetchTrack := fun s => .ok ("T" ++ s)
  fetchPlaylist := fun s => .ok ("P" ++ s)
  fetchAlbum := fun s => .ok ("AL" ++ s)
  fetchArtist := fun s => .ok ("AR" ++ s)
  album_track := fun _ => []
  artist_albums := fun _ => []

/-- C5 witness: a track reference issues exactly the single track fetch. -/
theorem resolve_uri_dispatch_witness :
    resolve_uri c5env "spotify:track:xyz" =
      ⟨.ok (SpotifyItem.Track "Txyz"), [NetCall.track "xyz"]⟩ :=
  (resolve_uri_dispatch c5env "spotify:track:xyz" "spotify" "track" "xyz" "xyz"
    [] (by decide) rfl).1 rfl

/-- C9 counterexample environment: the id constructor rejects every id,
as rspotify Id::from_id does for ids with characters outside its alphabet
(the source unwraps its Result, so rejection is a local panic). -/
def c9env : SpotifyEnv where
  fromId := fun _ => none
  fetchTrack := fun s => .ok s
  fetchPlaylist := fun s => .ok s
  fetchAlbum := fun s => .ok s
  fetchArtist := fun s => .ok s
  album_track := fun _ => []
  artist_albums := fun _ => []

/-- C9 counterexample: with an id the Id constructor rejects, resolve_uri
fails locally — it panics at from_id(id).unwrap() — and issues no network
call, contradicting the claim that a malformed id never causes a local
failure and is rejected only by the remote service. -/
theorem resolve_uri_malformed_id_panics :
    resolve_uri c9env "spotify:track:bad id" =
      ⟨RunResult.panic, ([] : List NetCall)⟩ := by
  decide

/-- C9 amended: ids are validated locally by the client library's from_id
constructor. A rejected id panics locally before any network call; an
accepted id is never rejected locally, and any error result of resolve_uri
is exactly a propagated remote-fetch error. -/
theorem resolve_uri_remote_only_failures (env : SpotifyEnv)
    (uri s0 kind id : String) (rest : List String)
    (hsplit : splitColon uri = s0 :: kind :: id :: rest)
    (hk : kind ∈ (["track", "playlist", "album", "artist"] : List String)) :
    (env.fromId id = none → resolve_uri env uri = ⟨.panic, []⟩) ∧
    (∀ vid, env.fromId id = some vid →
      (resolve_uri env uri).result ≠ .panic ∧
      (∀ e, (resolve_uri env uri).result = .err e →
        env.fetchTrack vid = .error e ∨ env.fetchPlaylist vid = .error e ∨
        env.fetchAlbum vid = .error e ∨ env.fetchArtist vid = .error e)) := by
  simp only [List.mem_cons, List.not_mem_nil, or_false] at hk
  rcases hk with rfl | rfl | rfl | rfl
  · refine ⟨fun hn => by simp [resolve_uri, hsplit, hn], fun vid hv => ?_⟩
    rcases hf : env.fetchTrack vid with t | e <;>
      simp [resolve_uri, hsplit, hv, hf, runOfExcept]
  · refine ⟨fun hn => by simp [resolve_uri, hsplit, hn], fun vid hv => ?_⟩
    rcases hf : env.fetchPlaylist vid with t | e <;>
      simp [resolve_uri, hsplit, hv, hf, runOfExcept]
  · refine ⟨fun hn => by simp [resolve_uri, hsplit, hn], fun vid hv => ?_⟩
    rcases hf : env.fetchAlbum vid with t | e <;>
      simp [resolve_uri, hsplit, hv, hf, runOfExcept]
  · refine ⟨fun hn => by simp [resolve_uri, hsplit, hn], fun vid hv => ?_⟩
    rcases hf : env.fetchArtist vid with t | e <;>
      simp [resolve_uri, hsplit, hv, hf, runOfExcept]

/-- Environment for the C9 amended-theorem witness: ids accepted, the
remote track fetch fails. -/
def c9okenv : SpotifyEnv where
  fromId := fun s => some s
  fetchTrack := fun _ => .error (.error "remote failure")
  fetchPlaylist := fun s => .ok s
  fetchAlbum := fun s => .ok s
  fetchArtist := fun s => .ok s
  album_track := fun _ => []
  artist_albums := fun _ => []

/-- C9 witness: with an accepted id there is no local panic, and the error
result is the propagated remote error. -/
theorem resolve_uri_remote_only_failures_witness :
    (resolve_uri c9okenv "spotify:track:zzz").result ≠ RunResult.panic :=
  ((resolve_uri_remote_only_failures c9okenv "spotify:track:zzz" "spotify"
    "track" "zzz" [] (by decide) (by decide)).2 "zzz" rfl).1

/-- C10: resolve_uri panics on any input with fewer than three
colon-delimited parts — parts[1] is indexed past the end before the kind is
even examined — instead of returning an error or Other. -/
theorem resolve_uri_short_input_panics (env : SpotifyEnv) (uri : String)
    (h : (splitColon uri).length < 3) :
    resolve_uri env uri = ⟨.panic, []⟩ := by
  have hnone : (splitColon uri)[2]? = none := by
    apply List.getElem?_eq_none
    omega
  simp [resolve_uri, hnone]

/-- Concrete environment for the C10 witness. -/
def c10env : SpotifyEnv where
  fromId := fun s => some s
  fetchTrack := fun s => .ok s
  fetchPlaylist := fun s => .ok s
  fetchAlbum := fun s => .ok s
  fetchArtist := fun s => .ok s
  album_track := fun _ => []
  artist_albums := fun _ => []

/-- C10 witness: "spotify:track" (two colon-delimited parts) panics. -/
theorem resolve_uri_short_input_panics_witness :
    resolve_uri c10env "spotify:track" = ⟨.panic, []⟩ :=
  resolve_uri_short_input_panics c10env "spotify:track" (by decide)

/-- Embedding of the paging loop
`while let Some(item) = stream.try_next().await.unwrap() { acc.push(item) }`:
the stream is a finite list of yields; an .error yield makes try_next
return Err, which the source unwraps — a panic, modelled as none. The list
ending is try_next returning Ok(None). -/
def collect_stream {α : Type} : List (Except SpotifyError α) → Option (List α)
  | [] => some []
  | .ok a :: rest => (collect_stream rest).map (fun l => a :: l)
  | .error _ :: _ => none

/-- Embedding of Spotify::full_album (src/spotify.rs lines 160-173):
AlbumId::from_id(id).unwrap(), then drain the album_track paging stream,
pushing each item; the println is ignored. The function only ever returns
Ok or panics — the Err case of its Result type is never produced. -/
def full_album (env : SpotifyEnv) (id : String) :
    RunResult SpotifyError (List SimplifiedTrack) :=
  match env.fromId id with
  | none => .panic
  | some vid =>
    match collect_stream (env.album_track vid) with
    | none => .panic
    | some tracks => .ok tracks

/-- Embedding of the for-loop of Spotify::full_artist (src/spotify.rs lines
188-195): for each album in order, album.id.unwrap() (panic on None), then
full_album(..).unwrap() (panic on Err, and a panic inside full_album
propagates), appending the tracks to the accumulator. -/
def full_artist_loop (env : SpotifyEnv) :
    List SimplifiedAlbum → List SimplifiedTrack →
    RunResult SpotifyError (List SimplifiedTrack)
  | [], tracks => .ok tracks
  | album :: rest, tracks =>
    match album.id with
    | none => .panic
    | some aid =>
      match full_album env aid with
      | .ok ts => full_artist_loop env rest (tracks ++ ts)
      | .err _ => .panic
      | .panic => .panic

/-- Embedding of Spotify::full_artist (src/spotify.rs lines 176-198):
ArtistId::from_id(id).unwrap(), drain the artist_albums paging stream into
the album list, then run the per-album loop with an empty accumulator. -/
def full_artist (env : SpotifyEnv) (id : String) :
    RunResult SpotifyError (List SimplifiedTrack) :=
  match env.fromId id with
  | none => .panic
  | some vid =>
    match collect_stream (env.artist_albums vid) with
    | none => .panic
    | some albums => full_artist_loop env albums []

/-- C1 environment: the album track stream fails after yielding one item;
the artist album stream succeeds, but the one album's track stream fails. -/
def c1env : SpotifyEnv where
  fromId := fun s => some s
  fetchTrack := fun s => .ok s
  fetchPlaylist := fun s => .ok s
  fetchAlbum := fun s => .ok s
  fetchArtist := fun s => .ok s
  album_track := fun _ => [.ok "t1", .error (.error "page fetch failed")]
  artist_albums := fun _ => [.ok ⟨some "alb"⟩]

/-- C1: a mid-paging page-fetch failure makes both expansions panic (the
source unwraps try_next's Result), so neither the propagated error nor the
partially collected tracks is ever returned, although both functions
declare Result with SpotifyError exactly for such propagation. -/
theorem expansion_page_failure_panics :
    full_album c1env "alb" = RunResult.panic ∧
    full_artist c1env "art" = RunResult.panic := by
  decide

/-- Helper for C4: when every album in the list has an id and its album
expansion succeeds with the tracks given by f, the artist loop returns the
accumulator followed by each album's tracks in listing order. -/
theorem full_artist_loop_ok (env : SpotifyEnv)
    (f : SimplifiedAlbum → List SimplifiedTrack) :
    ∀ (albums : List SimplifiedAlbum) (acc : List SimplifiedTrack),
    (∀ alb ∈ albums, ∃ s, alb.id = some s ∧ full_album env s = .ok (f alb)) →
    full_artist_loop env albums acc = .ok (acc ++ (albums.map f).flatten) := by
  intro albums
  induction albums with
  | nil => intro acc _; simp [full_artist_loop]
  | cons alb rest ih =>
    intro acc h
    obtain ⟨s, hid, hfa⟩ := h alb (List.mem_cons_self alb rest)
    have hrest := fun a ha => h a (List.mem_cons_of_mem alb ha)
    simp only [full_artist_loop, hid, hfa]
    rw [ih (acc ++ f alb) hrest]
    simp [List.append_assoc]

/-- C4: artist expansion first collects the albums in listing order, then
appends each album's album-expansion tracks, in that order, to one flat
output sequence — the concatenation of the per-album track lists, with no
deduplication. -/
theorem full_artist_order (env : SpotifyEnv) (aid vid : String)
    (albums : List SimplifiedAlbum)
    (f : SimplifiedAlbum → List SimplifiedTrack)
    (h1 : env.fromId aid = some vid)
    (h2 : collect_stream (env.artist_albums vid) = some albums)
    (h3 : ∀ alb ∈ albums, ∃ s, alb.id = some s ∧ full_album env s = .ok (f alb)) :
    full_artist env aid = .ok ((albums.map f).flatten) := by
  simp only [full_artist, h1, h2]
  rw [full_artist_loop_ok env f albums [] h3]
  simp

/-- C4 witness environment: artist with albums [A, B] in listing order,
with 2 and 3 tracks respectively. -/
def c4env : SpotifyEnv where
  fromId := fun s => some s
  fetchTrack := fun s => .ok s
  fetchPlaylist := fun s => .ok s
  fetchAlbum := fun s => .ok s
  fetchArtist := fun s => .ok s
  album_track := fun s =>
    if s = "A" then [.ok "A1", .ok "A2"]
    else if s = "B" then [.ok "B1", .ok "B2", .ok "B3"]
    else []
  artist_albums := fun _ => [.ok ⟨some "A"⟩, .ok ⟨some "B"⟩]

/-- Per-album track lists of the C4 witness environment. -/
def c4f : SimplifiedAlbum → List SimplifiedTrack := fun alb =>
  if alb.id = some "A" then ["A1", "A2"] else ["B1", "B2", "B3"]

/-- C4 witness: albums [A, B] with track counts [2, 3] expand to exactly
[A1, A2, B1, B2, B3]. -/
theorem full_artist_order_witness :
    full_artist c4env "artist" = .ok ["A1", "A2", "B1", "B2", "B3"] := by
  have h := full_artist_order c4env "artist" "artist"
    [⟨some "A"⟩, ⟨some "B"⟩] c4f rfl rfl (by
      intro alb hmem
      simp only [List.mem_cons, List.not_mem_nil, or_false] at hmem
      rcases hmem with rfl | rfl
      · exact ⟨"A", rfl, by decide⟩
      · exact ⟨"B", rfl, by decide⟩)
  simpa [c4f] using h

/-- Embedding of the Field enum (src/tag/mod.rs lines 49-58). -/
inductive Field where
  | Title
  | Artist
  | Album
  | TrackNumber
  | DiscNumber
  | AlbumArtist
  | Genre
  | Label
deriving DecidableEq

/-- Opaque stand-in for id3::frame::Timestamp, the parsed representation of
a release date; the embedded code only stores it, never inspects it. -/
structure Timestamp where
  raw : String
deriving DecidableEq

/-- The in-memory tag structure of the id3 crate as the embedded code uses
it: text frames addressed by frame id (TagLike::set_text replaces the frame
with that id) and the release-date slot (TagLike::set_date_released). -/
structure InnerTag where
  text : String → Option String
  dateReleased : Option Timestamp

/-- id3::Tag::default(): the empty tag structure. -/
def InnerTag.empty : InnerTag where
  text := fun _ => none
  dateReleased := none

/-- TagLike::set_text: stores value under frame id key, replacing any
existing frame with that id. -/
def InnerTag.setText (t : InnerTag) (key v : String) : InnerTag :=
  { t with text := fun k => if k = key then some v else t.text k }

/-- Embedding of the ID3v2 version enum used by the encoder. -/
inductive Version where
  | Id3v23
  | Id3v24
deriving DecidableEq

/-- Embedding of the ID3Tag struct (src/tag/id3.rs lines 10-15). -/
structure ID3Tag where
  path : String
  tag : InnerTag
  separator : String
  version : Version

/-- Embedding of ID3Tag::open (src/tag/id3.rs lines 19-28). readResult is
the oracle for id3::Tag::read_from_path: some parsed tag, or none when the
file has no readable tag structure; unwrap_or_default substitutes the empty
tag, so open always succeeds. -/
def ID3Tag.open (readResult : Option InnerTag) (path : String) :
    Except SpotifyError ID3Tag :=
  .ok { path := path, tag := readResult.getD InnerTag.empty,
        separator := "", version := .Id3v23 }

/-- Embedding of ID3Tag::set_separator (src/tag/id3.rs lines 40-42). -/
def ID3Tag.set_separator (t : ID3Tag) (separator : String) : ID3Tag :=
  { t with separator := separator }

/-- Embedding of ID3Tag::set_raw (src/tag/id3.rs lines 44-46):
self.tag.set_text(tag, value.join(separator)). -/
def ID3Tag.set_raw (t : ID3Tag) (tagKey : String) (value : List String) : ID3Tag :=
  { t with tag := t.tag.setText tagKey (joinSep t.separator value) }

/-- Embedding of ID3Tag::set_field (src/tag/id3.rs lines 48-60): maps the
canonical field to its ID3 frame id and delegates to set_raw. -/
def ID3Tag.set_field (t : ID3Tag) (field : Field) (value : List String) : ID3Tag :=
  t.set_raw
    (match field with
      | .Title => "TIT2"
      | .Artist => "TPE1"
      | .Album => "TALB"
      | .TrackNumber => "TRCK"
      | .DiscNumber => "TPOS"
      | .Genre => "TCON"
      | .Label => "TPUB"
      | .AlbumArtist => "TPE2")
    value

/-- Outcome of a tag mutation that can panic: the Tag trait methods other
than save return unit in the source, so there is no error result,
only success or a panic. -/
inductive TagOutcome where
  | ok (t : ID3Tag)
  | panic

/-- Embedding of ID3Tag::set_release_date (src/tag/id3.rs lines 75-78):
Timestamp::from_str(&date).unwrap(), then set_date_released. parseTs is
the oracle for the id3 crate's Timestamp parser; the source unwraps its
Result, so a parse failure panics. -/
def ID3Tag.set_release_date (parseTs : String → Option Timestamp)
    (t : ID3Tag) (date : String) : TagOutcome :=
  match parseTs date with
  | none => .panic
  | some ts => .ok { t with tag := { t.tag with dateReleased := some ts } }

/-- C6: set_field joins the values with the currently configured separator
and stores the result under the field's native ID3 frame id, per the
mapping table; in particular Title with values Foo, Bar and separator
"; " stores "Foo; Bar" under TIT2. -/
theorem set_field_mapping (t : ID3Tag) (sep : String) (v : List String) :
    (((t.set_separator sep).set_field .Title v).tag.text "TIT2"
      = some (joinSep sep v)) ∧
    (((t.set_separator sep).set_field .Artist v).tag.text "TPE1"
      = some (joinSep sep v)) ∧
    (((t.set_separator sep).set_field .Album v).tag.text "TALB"
      = some (joinSep sep v)) ∧
    (((t.set_separator sep).set_field .TrackNumber v).tag.text "TRCK"
      = some (joinSep sep v)) ∧
    (((t.set_separator sep).set_field .DiscNumber v).tag.text "TPOS"
      = some (joinSep sep v)) ∧
    (((t.set_separator sep).set_field .Genre v).tag.text "TCON"
      = some (joinSep sep v)) ∧
    (((t.set_separator sep).set_field .Label v).tag.text "TPUB"
      = some (joinSep sep v)) ∧
    (((t.set_separator sep).set_field .AlbumArtist v).tag.text "TPE2"
      = some (joinSep sep v)) ∧
    joinSep "; " ["Foo", "Bar"] = "Foo; Bar" := by
  refine ⟨?_, ?_, ?_, ?_, ?_, ?_, ?_, ?_, by decide⟩ <;>
    simp [ID3Tag.set_field, ID3Tag.set_raw, ID3Tag.set_separator, InnerTag.setText]

/-- Timestamp-parser oracle for the C7 theorems: models the id3 crate's
Timestamp::from_str, which requires the string to start with a year —
"2024-01-01" parses, "not-a-date" does not. -/
def c7parseTs : String → Option Timestamp := fun s =>
  if s = "2024-01-01" then some ⟨s⟩ else none

/-- A concrete open ID3 tag for the C7 theorems. -/
def c7tag : ID3Tag where
  path := "song.mp3"
  tag := InnerTag.empty
  separator := ""
  version := .Id3v23

/-- C7 counterexample: on the invalid timestamp string "not-a-date",
set_release_date panics at the unwrap — it does not fail with a
TagEncodingError result; indeed the trait method returns unit, so no error
result exists at all. -/
theorem set_release_date_invalid_panics :
    ID3Tag.set_release_date c7parseTs c7tag "not-a-date" = TagOutcome.panic := by
  rfl

/-- C7 amended: an invalid timestamp string makes set_release_date panic
(there is no error result channel); a valid timestamp string succeeds and
stores the parsed timestamp as the tag's release date. -/
theorem set_release_date_behavior (parseTs : String → Option Timestamp)
    (t : ID3Tag) (date : String) :
    (parseTs date = none →
      ID3Tag.set_release_date parseTs t date = .panic) ∧
    (∀ ts, parseTs date = some ts →
      ID3Tag.set_release_date parseTs t date =
        .ok { t with tag := { t.tag with dateReleased := some ts } }) := by
  refine ⟨fun hn => ?_, fun ts hs => ?_⟩
  · simp [ID3Tag.set_release_date, hn]
  · simp [ID3Tag.set_release_date, hs]

/-- C7 witness: "2024-01-01" parses and is stored as the release date,
"not-a-date" panics. -/
theorem set_release_date_behavior_witness :
    ID3Tag.set_release_date c7parseTs c7tag "2024-01-01" =
      .ok { c7tag with tag := { c7tag.tag with
              dateReleased := some ⟨"2024-01-01"⟩ } } ∧
    ID3Tag.set_release_date c7parseTs c7tag "not-a-date" = .panic :=
  ⟨(set_release_date_behavior c7parseTs c7tag "2024-01-01").2
      ⟨"2024-01-01"⟩ rfl,
    (set_release_date_behavior c7parseTs c7tag "not-a-date").1 rfl⟩

/-- Modelled from the spec: the audio container format (src/downloader.rs,
not in src/). The spec fixes exactly two supported formats; aac stands for
every other value the source's wildcard arm rejects. -/
inductive AudioFormat where
  | Ogg
  | Mp3
  | Aac
deriving DecidableEq

/-- Modelled from the spec: OggTag (src/tag/ogg.rs, not in src/): a
Vorbis-comment tag bound to one file. -/
structure OggTag where
  path : String
deriving DecidableEq

/-- Modelled from the spec: OggTag::open (src/tag/ogg.rs, not in src/).
Per the spec a missing comment block is implied-empty, so opening succeeds
with an empty tag. -/
def OggTag.open (path : String) : Except SpotifyError OggTag :=
  .ok { path := path }

/-- Embedding of the TagWrap enum (src/tag/mod.rs lines 12-15). -/
inductive TagWrap where
  | Ogg (t : OggTag)
  | Id3 (t : ID3Tag)

/-- Embedding of TagWrap::new (src/tag/mod.rs lines 19-25): Ogg and Mp3
each select their encoder via ? on its open; any other format value is an
Error("Invalid format!"). readResult is the oracle for the underlying
ID3 tag read, as in ID3Tag.open. -/
def TagWrap.new (readResult : Option InnerTag) (path : String)
    (format : AudioFormat) : Except SpotifyError TagWrap :=
  match format with
  | .Ogg => (OggTag.open path).map TagWrap.Ogg
  | .Mp3 => (ID3Tag.open readResult path).map TagWrap.Id3
  | .Aac => .error (.error "Invalid format!")

/-- C8: TagWrap::new accepts exactly the two supported container formats,
rejecting every other value with the explicit unsupported-format error
before any tag object is constructed; for the supported MP3 path, a file
without a readable pre-existing tag structure is not an error — the empty
tag structure is substituted, so a tag object always exists for save. -/
theorem tagwrap_new_formats (readResult : Option InnerTag) (path : String) :
    (∀ fmt, (∃ w, TagWrap.new readResult path fmt = .ok w) ↔
      (fmt = .Ogg ∨ fmt = .Mp3)) ∧
    TagWrap.new readResult path .Aac = .error (.error "Invalid format!") ∧
    TagWrap.new none path .Mp3 =
      .ok (.Id3 { path := path, tag := InnerTag.empty,
                  separator := "", version := .Id3v23 }) := by
  refine ⟨fun fmt => ?_, rfl, rfl⟩
  cases fmt with
  | Ogg => simp [TagWrap.new, OggTag.open, Except.map]
  | Mp3 => simp [TagWrap.new, ID3Tag.open, Except.map]
  | Aac => simp [TagWrap.new]

/-- C8 witness: the unsupported format is rejected with the explicit error,
and opening an MP3 with no pre-existing tag yields the empty tag. -/
theorem tagwrap_new_formats_witness :
    TagWrap.new none "song.mp3" .Aac = .error (.error "Invalid format!") ∧
    TagWrap.new none "song.mp3" .Mp3 =
      .ok (.Id3 { path := "song.mp3", tag := InnerTag.empty,
                  separator := "", version := .Id3v23 }) :=
  ⟨(tagwrap_new_formats none "song.mp3").2.1,
    (tagwrap_new_formats none "song.mp3").2.2⟩

end DownOnSpot
